import Mathlib

/-!
Verification of the authentication-and-abuse-control core of the
`fastapi_basic` application: the Redis-backed atomic counter primitive,
the fixed-window rate limiter (`app/rate_limit.py`), the brute-force
login guard (`app/bruteforce.py`), JWT issuance and verification
(`app/security.py`), and the refresh-token rotation state machine
(`app/routes/auth.py`).

The Python code is embedded shallowly: the Redis key space is a function
from keys to optional entries (an integer value plus an optional
remaining TTL), the relational store is a pair of lists mirroring the
`users` and `refresh_tokens` tables, and each async endpoint becomes a
pure state-passing function returning its HTTP outcome together with the
post-state.  Time is an explicit natural-number parameter (seconds since
the epoch); `uuid4` values are explicit string parameters.
-/

/-- Content of one Redis key: an integer value (counters store integers;
the lock marker is stored as the integer 1) and an optional remaining
TTL in seconds (`none` means the key has no expiry). -/
structure RVal where
  value : Nat
  ttl : Option Nat
deriving Repr, DecidableEq

/-- The Redis key space: each key is either absent or holds an `RVal`. -/
def RedisState : Type := String → Option RVal

/-- Point update of the key space (the effect of any single-key write). -/
def rset (st : RedisState) (key : String) (v : Option RVal) : RedisState :=
  fun k => if k = key then v else st k

/-- The Lua script shared verbatim by `rate_limit.py/_incr_with_ttl` and
`bruteforce.py/_incr_with_ttl`: `INCR` the key (Redis creates an absent
key at 0 first, so the result is the old value plus one), and only when
the resulting value is 1 run `EXPIRE key window_seconds`; return the
post-increment value.  The script runs atomically, so it is one step
of the model. -/
def incr_with_ttl (st : RedisState) (key : String) (window_seconds : Nat) :
    Nat × RedisState :=
  match st key with
  | none => (1, rset st key (some ⟨1, some window_seconds⟩))
  | some e =>
      let current := e.value + 1
      if current = 1 then
        (current, rset st key (some ⟨current, some window_seconds⟩))
      else
        (current, rset st key (some ⟨current, e.ttl⟩))

/-- The Redis `TTL` command as used by `_ttl_seconds` / `_ttl`:
-2 for an absent key, -1 for a key without expiry, otherwise the
remaining seconds. -/
def ttlCmd (st : RedisState) (key : String) : Int :=
  match st key with
  | none => -2
  | some e =>
      match e.ttl with
      | none => -1
      | some t => (t : Int)

/-- The Redis `EXISTS` command (truthy iff the key is present). -/
def rexists (st : RedisState) (key : String) : Bool :=
  (st key).isSome

/-- The Redis `SET key value EX ttl` command: unconditionally overwrite
the key and give it the stated expiry. -/
def rsetEx (st : RedisState) (key : String) (v : Nat) (ttlSeconds : Nat) :
    RedisState :=
  rset st key (some ⟨v, some ttlSeconds⟩)

/-- The Redis `DEL k1 k2` command used by `clear_state`. -/
def rdel2 (st : RedisState) (k1 k2 : String) : RedisState :=
  rset (rset st k1 none) k2 none

/-- Configuration `RateLimit` from `rate_limit.py`.  The source field
`key_prefix` is spelled `keyPfx` here. -/
structure RateLimit where
  keyPfx : String
  limit : Nat
  window_seconds : Nat
deriving Repr, DecidableEq

/-- The rate-limit key built inside the `limiter` dependency. -/
def rlKey (cfg : RateLimit) (ident : String) : String :=
  "rl:" ++ cfg.keyPfx ++ ":" ++ ident

/-- Outcome of one pass through the limiter dependency: either the
request proceeds, or HTTP 429 with the `Retry-After` header value. -/
inductive RlOutcome where
  | allow : RlOutcome
  | reject (retry_after : Int) : RlOutcome
deriving Repr, DecidableEq

/-- The dependency returned by `limiter` in `rate_limit.py`, for an already-resolved
identity: increment the counter with the window TTL; if the
post-increment count exceeds the limit, reject with
`Retry-After = max(ttl, 1)`; otherwise allow. -/
def limiter_dep (cfg : RateLimit) (ident : String) (st : RedisState) :
    RlOutcome × RedisState :=
  let key := rlKey cfg ident
  let r := incr_with_ttl st key cfg.window_seconds
  if r.1 > cfg.limit then
    (RlOutcome.reject (max (ttlCmd r.2 key) 1), r.2)
  else
    (RlOutcome.allow, r.2)

/-- Run `n` consecutive limiter calls for the same identity (no time passes
between them); returns the outcomes in order plus the final key space. -/
def limiterCalls (cfg : RateLimit) (ident : String) :
    Nat → RedisState → List RlOutcome × RedisState
  | 0, st => ([], st)
  | n + 1, st =>
      let r := limiter_dep cfg ident st
      let rest := limiterCalls cfg ident n r.2
      (r.1 :: rest.1, rest.2)

/-- Configuration `BruteForceConfig` from `bruteforce.py`.  The source field `key_prefix`
is spelled `keyPfx` here. -/
structure BruteForceConfig where
  keyPfx : String
  max_failures : Nat
  window_seconds : Nat
  lock_seconds : Nat
deriving Repr, DecidableEq

/-- The failure key built by `bruteforce.py/_fail_key`. -/
def fail_key (cfg : BruteForceConfig) (username ip : String) : String :=
  "bf:" ++ cfg.keyPfx ++ ":fail:" ++ username ++ ":" ++ ip

/-- The lock key built by `bruteforce.py/_lock_key`. -/
def lock_key (cfg : BruteForceConfig) (username ip : String) : String :=
  "bf:" ++ cfg.keyPfx ++ ":lock:" ++ username ++ ":" ++ ip

/-- Outcome of `ensure_not_locked`: pass, or HTTP 429 with the
`Retry-After` header value. -/
inductive BfOutcome where
  | ok : BfOutcome
  | locked (retry_after : Int) : BfOutcome
deriving Repr, DecidableEq

/-- Translation of `bruteforce.py/ensure_not_locked`: if the lock key exists, fail with
`Retry-After = max(ttl(lockKey), 1)`. -/
def ensure_not_locked (cfg : BruteForceConfig) (username ip : String)
    (st : RedisState) : BfOutcome :=
  let lk := lock_key cfg username ip
  if rexists st lk then
    BfOutcome.locked (max (ttlCmd st lk) 1)
  else
    BfOutcome.ok

/-- Translation of `bruteforce.py/register_failure`: increment the failure key with the
window TTL; if the returned count reaches `max_failures`, set the lock
key (`SET lk "1" ex=lock_seconds`).  Returns the failure count. -/
def register_failure (cfg : BruteForceConfig) (username ip : String)
    (st : RedisState) : Nat × RedisState :=
  let r := incr_with_ttl st (fail_key cfg username ip) cfg.window_seconds
  if r.1 ≥ cfg.max_failures then
    (r.1, rsetEx r.2 (lock_key cfg username ip) 1 cfg.lock_seconds)
  else
    r

/-- Run `n` consecutive `register_failure` calls for the same identity
(no time passes between them); returns the final key space. -/
def registerFailuresN (cfg : BruteForceConfig) (username ip : String) :
    Nat → RedisState → RedisState
  | 0, st => st
  | n + 1, st => registerFailuresN cfg username ip n
      (register_failure cfg username ip st).2

/-- Translation of `bruteforce.py/clear_state`: delete both the failure key and the
lock key. -/
def clear_state (cfg : BruteForceConfig) (username ip : String)
    (st : RedisState) : RedisState :=
  rdel2 st (fail_key cfg username ip) (lock_key cfg username ip)

/-- The integer currently stored at a key (0 when absent, matching
Redis `INCR` semantics of treating an absent key as 0). -/
def counterVal (st : RedisState) (key : String) : Nat :=
  match st key with
  | none => 0
  | some e => e.value

/-- C2: `incrementWithExpiry` increments the integer at the key
(creating it at 1 if absent) and returns the post-increment value; it
sets the expiry of the key to the window only when the resulting value is 1,
and an increment whose result exceeds 1 leaves the existing TTL
unchanged. -/
theorem C2_incr_with_ttl_contract (st : RedisState) (key : String) (w : Nat) :
    (incr_with_ttl st key w).1 = counterVal st key + 1
    ∧ (counterVal st key = 0 →
        (incr_with_ttl st key w).2 key = some ⟨1, some w⟩)
    ∧ (∀ e, st key = some e → 0 < e.value →
        (incr_with_ttl st key w).2 key = some ⟨e.value + 1, e.ttl⟩) := by
  refine ⟨?_, ?_, ?_⟩
  · unfold incr_with_ttl counterVal
    cases h : st key with
    | none => simp
    | some e =>
        by_cases hv : e.value + 1 = 1 <;> simp [hv]
  · intro h0
    unfold incr_with_ttl
    unfold counterVal at h0
    cases h : st key with
    | none => simp [rset]
    | some e =>
        rw [h] at h0
        have hv : e.value = 0 := by simpa using h0
        simp [h, hv, rset]
  · intro e he hpos
    unfold incr_with_ttl
    simp only [he]
    have : ¬ (e.value + 1 = 1) := by omega
    simp [this, rset]

/-- Witness for C2 at a concrete key space. -/
theorem C2_incr_with_ttl_contract_witness :
    (incr_with_ttl (fun _ => none) "k" 10).1 = counterVal (fun _ => none) "k" + 1
    ∧ (incr_with_ttl (fun _ => none) "k" 10).2 "k" = some ⟨1, some 10⟩
    ∧ (incr_with_ttl (fun _ => some ⟨3, some 7⟩) "k" 10).2 "k" = some ⟨4, some 7⟩ :=
  ⟨(C2_incr_with_ttl_contract (fun _ => none) "k" 10).1,
   (C2_incr_with_ttl_contract (fun _ => none) "k" 10).2.1 (by rfl),
   (C2_incr_with_ttl_contract (fun _ => some ⟨3, some 7⟩) "k" 10).2.2
     ⟨3, some 7⟩ rfl (by decide)⟩

/-- C9: `clear_state` deletes both the failure key and the lock key, so
`ensure_not_locked` run immediately afterwards always succeeds, whatever
the prior state. -/
theorem C9_clear_state_unlocks (cfg : BruteForceConfig) (username ip : String)
    (st : RedisState) :
    clear_state cfg username ip st (fail_key cfg username ip) = none
    ∧ clear_state cfg username ip st (lock_key cfg username ip) = none
    ∧ ensure_not_locked cfg username ip (clear_state cfg username ip st)
        = BfOutcome.ok := by
  unfold clear_state rdel2 ensure_not_locked rexists
  refine ⟨?_, ?_, ?_⟩
  · by_cases h : fail_key cfg username ip = lock_key cfg username ip <;>
      simp [rset, h]
  · simp [rset]
  · simp [rset]

/-- C3: the limiter builds the key `rl:<pfx>:<ident>`, increments it via
the counter primitive, allows when the post-increment count is at most
the limit, rejects when the count exceeds the limit with a retry-after
of the remaining TTL of the key floored at 1 (hence always at least 1); with
`limit = 5, window_seconds = 10` the 6th call within a window is
rejected with a retry-after of at least 1. -/
theorem C3_limiter_fixed_window
    (cfg : RateLimit) (ident : String) (st : RedisState)
    (pfx id6 : String) (st6 : RedisState)
    (h6 : st6 (rlKey ⟨pfx, 5, 10⟩ id6) = none) :
    ((limiter_dep cfg ident st).1 = RlOutcome.allow ↔
        (incr_with_ttl st (rlKey cfg ident) cfg.window_seconds).1 ≤ cfg.limit)
    ∧ (cfg.limit < (incr_with_ttl st (rlKey cfg ident) cfg.window_seconds).1 →
        (limiter_dep cfg ident st).1
          = RlOutcome.reject
              (max (ttlCmd (incr_with_ttl st (rlKey cfg ident)
                              cfg.window_seconds).2 (rlKey cfg ident)) 1))
    ∧ (∀ ra, (limiter_dep cfg ident st).1 = RlOutcome.reject ra → 1 ≤ ra)
    ∧ (limiterCalls ⟨pfx, 5, 10⟩ id6 6 st6).1
        = [RlOutcome.allow, RlOutcome.allow, RlOutcome.allow, RlOutcome.allow,
           RlOutcome.allow, RlOutcome.reject 10] := by
  refine ⟨?_, ?_, ?_, ?_⟩
  · unfold limiter_dep
    by_cases h :
        (incr_with_ttl st (rlKey cfg ident) cfg.window_seconds).1 > cfg.limit
    · simp [h]
    · simp [h]
      omega
  · intro h
    unfold limiter_dep
    simp [h]
  · intro ra hra
    unfold limiter_dep at hra
    by_cases h :
        (incr_with_ttl st (rlKey cfg ident) cfg.window_seconds).1 > cfg.limit
    · simp [h] at hra
      rw [← hra]
      exact le_max_right _ 1
    · simp [h] at hra
  · simp [limiterCalls, limiter_dep, incr_with_ttl, rset, ttlCmd, h6]

/-- C4: `register_failure` increments the failure key
`bf:<pfx>:fail:<user>:<ip>` with the window TTL and returns that count;
whenever the count reaches `max_failures` it sets the lock key
`bf:<pfx>:lock:<user>:<ip>` with a `lock_seconds` TTL independent of the
TTL of the failure counter; with `max_failures = 5`, after 5 failures for the
same `(user, ip)` a subsequent `ensure_not_locked` fails with a
retry-after equal to the remaining TTL of the lock key floored at 1. -/
theorem C4_bruteforce_lockout
    (cfg : BruteForceConfig) (username ip : String) (st : RedisState)
    (pfx u6 ip6 : String) (w ls : Nat) (st6 : RedisState)
    (h6 : st6 (fail_key ⟨pfx, 5, w, ls⟩ u6 ip6) = none) :
    ((register_failure cfg username ip st).1
        = (incr_with_ttl st (fail_key cfg username ip) cfg.window_seconds).1)
    ∧ (cfg.max_failures ≤
        (incr_with_ttl st (fail_key cfg username ip) cfg.window_seconds).1 →
        (register_failure cfg username ip st).2 (lock_key cfg username ip)
          = some ⟨1, some cfg.lock_seconds⟩)
    ∧ (ensure_not_locked ⟨pfx, 5, w, ls⟩ u6 ip6
          (registerFailuresN ⟨pfx, 5, w, ls⟩ u6 ip6 5 st6)
        = BfOutcome.locked (max (ls : Int) 1)
       ∧ (1 : Int) ≤ max (ls : Int) 1) := by
  refine ⟨?_, ?_, ?_, ?_⟩
  · unfold register_failure
    by_cases h :
        (incr_with_ttl st (fail_key cfg username ip) cfg.window_seconds).1
          ≥ cfg.max_failures <;>
      simp [h]
  · intro h
    unfold register_failure
    simp [h, rsetEx, rset]
  · simp [registerFailuresN, register_failure, incr_with_ttl, rsetEx, rset,
      ensure_not_locked, rexists, ttlCmd, h6]
  · exact le_max_right _ 1

/-- Witness for C3 at a concrete key space: an over-limit call rejects
with the floored TTL, and six fresh calls give five allows then a
rejection. -/
theorem C3_limiter_fixed_window_witness :
    (limiter_dep ⟨"demo", 5, 10⟩ "ip1" (fun _ => some ⟨7, some 4⟩)).1
        = RlOutcome.reject
            (max (ttlCmd (incr_with_ttl (fun _ => some ⟨7, some 4⟩)
                    (rlKey ⟨"demo", 5, 10⟩ "ip1") 10).2
                  (rlKey ⟨"demo", 5, 10⟩ "ip1")) 1)
    ∧ (limiterCalls ⟨"demo", 5, 10⟩ "ip2" 6 (fun _ => none)).1
        = [RlOutcome.allow, RlOutcome.allow, RlOutcome.allow, RlOutcome.allow,
           RlOutcome.allow, RlOutcome.reject 10] :=
  ⟨(C3_limiter_fixed_window ⟨"demo", 5, 10⟩ "ip1" (fun _ => some ⟨7, some 4⟩)
      "demo" "ip2" (fun _ => none) rfl).2.1 (by decide),
   (C3_limiter_fixed_window ⟨"demo", 5, 10⟩ "ip1" (fun _ => some ⟨7, some 4⟩)
      "demo" "ip2" (fun _ => none) rfl).2.2.2⟩

/-- Witness for C4 at a concrete key space: the fifth failure installs
the lock with the lock TTL, and `ensure_not_locked` then rejects. -/
theorem C4_bruteforce_lockout_witness :
    (register_failure ⟨"p", 5, 120, 60⟩ "u" "i"
        (fun _ => some ⟨4, some 9⟩)).2 (lock_key ⟨"p", 5, 120, 60⟩ "u" "i")
      = some ⟨1, some 60⟩
    ∧ ensure_not_locked ⟨"p", 5, 120, 60⟩ "u2" "i2"
        (registerFailuresN ⟨"p", 5, 120, 60⟩ "u2" "i2" 5 (fun _ => none))
      = BfOutcome.locked (max (60 : Int) 1) :=
  ⟨(C4_bruteforce_lockout ⟨"p", 5, 120, 60⟩ "u" "i"
      (fun _ => some ⟨4, some 9⟩) "p" "u2" "i2" 120 60 (fun _ => none)
      rfl).2.1 (by decide),
   ((C4_bruteforce_lockout ⟨"p", 5, 120, 60⟩ "u" "i"
      (fun _ => some ⟨4, some 9⟩) "p" "u2" "i2" 120 60 (fun _ => none)
      rfl).2.2).1⟩

/-- JWT claims as built in `security.py` (`type`, `sub`, `role`, `iat`,
`exp`, `jti`).  `sub` is serialized as `str(user_id)` at issuance and
parsed back with `int(...)` at use; that round trip is the identity on
user ids, so `sub` is carried here as the id itself.  `role` is present
only on access tokens. -/
structure Claims where
  type : String
  sub : Nat
  role : Option String
  iat : Nat
  exp : Nat
  jti : String
deriving Repr, DecidableEq

/-- A compact signed token.  The HS256 signature is modelled by
recording the signing secret: `jose.jwt.decode` accepts the token
exactly when it was produced with the same secret. -/
structure Token where
  claims : Claims
  signedWith : String
deriving Repr, DecidableEq

/-- Errors raised by `jose.jwt.decode`: bad signature / malformed
payload, or an expired `exp`. -/
inductive DecodeError where
  | invalidToken : DecodeError
  | expiredToken : DecodeError
deriving Repr, DecidableEq

/-- Translation of `security.py/create_access_token`: claims
`type="access", sub=user_id, role, iat=now, exp=now+ACCESS_MIN*60`,
signed with the secret.  `jti` (a `uuid4` in the source) is an explicit
parameter. -/
def create_access_token (secret : String) (accessMin : Nat) (now : Nat)
    (user_id : Nat) (role : String) (jti : String) : Token :=
  ⟨⟨"access", user_id, some role, now, now + accessMin * 60, jti⟩, secret⟩

/-- Translation of `security.py/create_refresh_token`: claims
`type="refresh", sub=user_id, iat=now, exp=now+REFRESH_DAYS*86400`,
signed with the secret; also returns the expiry timestamp. -/
def create_refresh_token (secret : String) (refreshDays : Nat) (now : Nat)
    (user_id : Nat) (jti : String) : Token × Nat :=
  (⟨⟨"refresh", user_id, none, now, now + refreshDays * 86400, jti⟩, secret⟩,
   now + refreshDays * 86400)

/-- Translation of `security.py/decode_token` (`jose.jwt.decode`): reject a token whose
signature does not verify against the secret, then reject when
`exp < now` (python-jose compares with zero leeway), otherwise return
the claims. -/
def decode_token (secret : String) (now : Nat) (t : Token) :
    Except DecodeError Claims :=
  if t.signedWith ≠ secret then
    Except.error DecodeError.invalidToken
  else if t.claims.exp < now then
    Except.error DecodeError.expiredToken
  else
    Except.ok t.claims

/-- C5: verifying an access token issued for `(user_id, role)` before
its TTL elapses succeeds with claims of type `"access"`, the issued
subject and the issued role; verifying it after the TTL elapses fails
with the expired-token error. -/
theorem C5_access_token_roundtrip (secret : String) (accessMin now tv : Nat)
    (user_id : Nat) (role jti : String) :
    (tv < now + accessMin * 60 →
      decode_token secret tv (create_access_token secret accessMin now user_id role jti)
        = Except.ok ⟨"access", user_id, some role, now, now + accessMin * 60, jti⟩)
    ∧ (now + accessMin * 60 < tv →
      decode_token secret tv (create_access_token secret accessMin now user_id role jti)
        = Except.error DecodeError.expiredToken) := by
  constructor
  · intro h
    unfold decode_token create_access_token
    have : ¬ (now + accessMin * 60 < tv) := by omega
    simp [this]
  · intro h
    unfold decode_token create_access_token
    simp [h]

/-- Witness for C5 at concrete inputs: issuance at time 100 with a
15-minute TTL verifies at time 500 and is expired at time 2000. -/
theorem C5_access_token_roundtrip_witness :
    decode_token "s" 500 (create_access_token "s" 15 100 7 "admin" "j")
      = Except.ok ⟨"access", 7, some "admin", 100, 1000, "j"⟩
    ∧ decode_token "s" 2000 (create_access_token "s" 15 100 7 "admin" "j")
      = Except.error DecodeError.expiredToken :=
  ⟨(C5_access_token_roundtrip "s" 15 100 500 7 "admin" "j").1 (by omega),
   (C5_access_token_roundtrip "s" 15 100 2000 7 "admin" "j").2 (by omega)⟩

/-- A row of the `users` table (`models.py/UserORM`). -/
structure UserORM where
  id : Nat
  username : String
  password_hash : String
  role : String
deriving Repr, DecidableEq

/-- A row of the `refresh_tokens` table (`models.py/RefreshTokenORM`);
the surrogate integer primary key is irrelevant to the logic and is
omitted. -/
structure RefreshTokenORM where
  jti : String
  user_id : Nat
  expires_at : Nat
  revoked : Bool
deriving Repr, DecidableEq

/-- The persistent relational store: the two tables the auth routes
touch. -/
structure DBState where
  users : List UserORM
  refresh_tokens : List RefreshTokenORM
deriving Repr, DecidableEq

/-- The query `SELECT * FROM users WHERE username = ...` with
`scalar_one_or_none`. -/
def findUserByName (db : DBState) (username : String) : Option UserORM :=
  db.users.find? (fun u => u.username == username)

/-- The query `SELECT * FROM users WHERE id = ...` with `scalar_one_or_none`. -/
def findUserById (db : DBState) (uid : Nat) : Option UserORM :=
  db.users.find? (fun u => u.id == uid)

/-- The query `SELECT * FROM refresh_tokens WHERE jti = ...` with
`scalar_one_or_none`. -/
def findRT (db : DBState) (jti : String) : Option RefreshTokenORM :=
  db.refresh_tokens.find? (fun rt => rt.jti == jti)

/-- The committed effect of `rt.revoked = True` on the row(s) matching
`jti`. -/
def revokeRT (db : DBState) (jti : String) : DBState :=
  { db with
    refresh_tokens := db.refresh_tokens.map
      (fun rt => if rt.jti == jti then { rt with revoked := true } else rt) }

/-- The committed effect of `db.add(RefreshTokenORM(...))`. -/
def addRT (db : DBState) (rt : RefreshTokenORM) : DBState :=
  { db with refresh_tokens := db.refresh_tokens ++ [rt] }

/-- An `HTTPException`: status code and detail message. -/
structure HttpError where
  status_code : Nat
  detail : String
deriving Repr, DecidableEq

/-- The `TokenPair` response schema (`token_type` is always
`"bearer"`). -/
structure TokenPair where
  access_token : Token
  refresh_token : Token
deriving Repr, DecidableEq

/-- Translation of `routes/auth.py/login`: look the user up by username; if absent or
the password does not verify, fail with the one generic
`401 "Invalid credentials"`; otherwise mint an access and a refresh
token, persist the refresh `jti`, and return the pair.  `verify_pw`
stands for the external bcrypt `verify_password`; `accessJti` and
`refreshJti` stand for the two `uuid4` draws. -/
def login (verify_pw : String → String → Bool) (secret : String)
    (accessMin refreshDays : Nat) (now : Nat) (accessJti refreshJti : String)
    (username password : String) (db : DBState) :
    Except HttpError TokenPair × DBState :=
  match findUserByName db username with
  | none => (Except.error ⟨401, "Invalid credentials"⟩, db)
  | some user =>
      if ! verify_pw password user.password_hash then
        (Except.error ⟨401, "Invalid credentials"⟩, db)
      else
        let access := create_access_token secret accessMin now user.id user.role accessJti
        let rr := create_refresh_token secret refreshDays now user.id refreshJti
        let db1 := addRT db ⟨refreshJti, user.id, rr.2, false⟩
        (Except.ok ⟨access, rr.1⟩, db1)

/-- Translation of `routes/auth.py/refresh_token`: decode the presented token (401 on
failure), require `type == "refresh"`, look its `jti` up (401
revoked-or-unknown if absent or revoked), flip `revoked = True` and
commit, then look the subject user up (401 if gone — the revocation is
already committed), mint and persist a new pair, and return it.
`newAccessJti`/`newRefreshJti` stand for the two `uuid4` draws of the
new pair. -/
def refresh_token (secret : String) (accessMin refreshDays : Nat) (now : Nat)
    (newAccessJti newRefreshJti : String) (tok : Token) (db : DBState) :
    Except HttpError TokenPair × DBState :=
  match decode_token secret now tok with
  | Except.error _ => (Except.error ⟨401, "Invalid or expired refresh token"⟩, db)
  | Except.ok claims =>
      if claims.type ≠ "refresh" then
        (Except.error ⟨401, "Not a refresh token"⟩, db)
      else
        match findRT db claims.jti with
        | none => (Except.error ⟨401, "Refresh token revoked or unknown"⟩, db)
        | some rt =>
            if rt.revoked then
              (Except.error ⟨401, "Refresh token revoked or unknown"⟩, db)
            else
              let db1 := revokeRT db claims.jti
              match findUserById db1 claims.sub with
              | none => (Except.error ⟨401, "User not found"⟩, db1)
              | some user =>
                  let access := create_access_token secret accessMin now
                    user.id user.role newAccessJti
                  let rr := create_refresh_token secret refreshDays now
                    user.id newRefreshJti
                  let db2 := addRT db1 ⟨newRefreshJti, user.id, rr.2, false⟩
                  (Except.ok ⟨access, rr.1⟩, db2)

/-- Looking a `jti` up after the revoking map touches exactly the
matching record: the lookup commutes with setting `revoked := true`. -/
theorem find?_map_revoke (l : List RefreshTokenORM) (j : String) :
    (l.map (fun rt => if rt.jti == j then { rt with revoked := true } else rt)).find?
        (fun rt => rt.jti == j)
      = (l.find? (fun rt => rt.jti == j)).map
          (fun rt => { rt with revoked := true }) := by
  induction l with
  | nil => simp
  | cons hd tl ih =>
      by_cases h : hd.jti = j
      · simp [List.find?_cons, h, -List.find?_map]
      · simp [List.find?_cons, h, -List.find?_map]
        simpa using ih

/-- Lookup via `findRT` after the committed `rt.revoked = True` write. -/
theorem findRT_revokeRT (db : DBState) (j : String) :
    findRT (revokeRT db j) j
      = (findRT db j).map (fun rt => { rt with revoked := true }) := by
  unfold findRT revokeRT
  exact find?_map_revoke db.refresh_tokens j

/-- Lookup via `findRT` after persisting a fresh record with a different `jti` is
unchanged. -/
theorem findRT_addRT_ne (db : DBState) (rt0 : RefreshTokenORM) (j : String)
    (h : rt0.jti ≠ j) :
    findRT (addRT db rt0) j = findRT db j := by
  unfold findRT addRT
  rw [List.find?_append]
  simp [List.find?_cons, h]

/-- Revoking touches only the `refresh_tokens` table. -/
theorem findUserById_revokeRT (db : DBState) (j : String) (uid : Nat) :
    findUserById (revokeRT db j) uid = findUserById db uid := by
  unfold findUserById revokeRT
  rfl

/-- C8: a failed login answers with HTTP 401 and the one generic
`"Invalid credentials"` message whether the username is unknown or the
password is wrong, so the two runs are indistinguishable. -/
theorem C8_login_failure_indistinguishable
    (verify_pw : String → String → Bool) (secret : String)
    (accessMin refreshDays now : Nat) (aj rj aj2 rj2 : String)
    (db1 db2 : DBState) (u1 p1 u2 p2 : String) (user : UserORM)
    (h1 : findUserByName db1 u1 = none)
    (h2 : findUserByName db2 u2 = some user)
    (h3 : verify_pw p2 user.password_hash = false) :
    (login verify_pw secret accessMin refreshDays now aj rj u1 p1 db1).1
        = Except.error ⟨401, "Invalid credentials"⟩
    ∧ (login verify_pw secret accessMin refreshDays now aj2 rj2 u2 p2 db2).1
        = Except.error ⟨401, "Invalid credentials"⟩
    ∧ (login verify_pw secret accessMin refreshDays now aj rj u1 p1 db1).1
        = (login verify_pw secret accessMin refreshDays now aj2 rj2 u2 p2 db2).1 := by
  refine ⟨?_, ?_, ?_⟩ <;> simp [login, h1, h2, h3]

/-- Witness for C8: in a store holding only `alice`, logging in as the
unknown `bob` and logging in as `alice` with a wrong password produce
the same 401 response. -/
theorem C8_login_failure_indistinguishable_witness :
    (login (fun p h => p == h) "s" 15 7 100 "a1" "r1" "bob" "x"
        ⟨[⟨1, "alice", "pw", "user"⟩], []⟩).1
      = Except.error ⟨401, "Invalid credentials"⟩
    ∧ (login (fun p h => p == h) "s" 15 7 100 "a2" "r2" "alice" "wrong"
        ⟨[⟨1, "alice", "pw", "user"⟩], []⟩).1
      = Except.error ⟨401, "Invalid credentials"⟩ :=
  ⟨(C8_login_failure_indistinguishable (fun p h => p == h) "s" 15 7 100
      "a1" "r1" "a2" "r2" ⟨[⟨1, "alice", "pw", "user"⟩], []⟩
      ⟨[⟨1, "alice", "pw", "user"⟩], []⟩ "bob" "x" "alice" "wrong"
      ⟨1, "alice", "pw", "user"⟩ (by decide) (by decide) (by decide)).1,
   (C8_login_failure_indistinguishable (fun p h => p == h) "s" 15 7 100
      "a1" "r1" "a2" "r2" ⟨[⟨1, "alice", "pw", "user"⟩], []⟩
      ⟨[⟨1, "alice", "pw", "user"⟩], []⟩ "bob" "x" "alice" "wrong"
      ⟨1, "alice", "pw", "user"⟩ (by decide) (by decide) (by decide)).2.1⟩

/-- C1: after a first successful rotation of a refresh token, the old
record has had its `revoked` flag flipped from false to true, and a
second rotation presenting the same token fails with the
revoked-or-unknown 401.  The freshness hypothesis `rj1 ≠ tok.claims.jti`
is the uniqueness of `jti` in the store (a new `uuid4` never collides with
the presented one); `now2 ≤ tok.claims.exp` keeps the second
presentation inside the lifetime of the token itself, so that the failure is the
revocation check and not expiry. -/
theorem C1_second_rotation_rejected
    (secret : String) (accessMin refreshDays now now2 : Nat)
    (aj1 rj1 aj2 rj2 : String) (tok : Token) (db db1 : DBState)
    (pair : TokenPair)
    (hfirst : refresh_token secret accessMin refreshDays now aj1 rj1 tok db
        = (Except.ok pair, db1))
    (hfresh : rj1 ≠ tok.claims.jti)
    (hnow2 : now2 ≤ tok.claims.exp) :
    (∃ rt, findRT db tok.claims.jti = some rt ∧ rt.revoked = false
        ∧ findRT db1 tok.claims.jti = some { rt with revoked := true })
    ∧ (refresh_token secret accessMin refreshDays now2 aj2 rj2 tok db1).1
        = Except.error ⟨401, "Refresh token revoked or unknown"⟩ := by
  simp only [refresh_token] at hfirst
  split at hfirst
  case h_1 e heq => simp at hfirst
  case h_2 claims heq =>
    have hsig : tok.signedWith = secret := by
      by_contra hs
      simp [decode_token, hs] at heq
    have hnexp : ¬ tok.claims.exp < now := by
      by_contra hx
      simp [decode_token, hsig, hx] at heq
    have hclaims : claims = tok.claims := by
      unfold decode_token at heq
      simp [hsig, hnexp] at heq
      exact heq.symm
    subst hclaims
    split at hfirst
    · simp at hfirst
    · case _ htype =>
      rw [not_not] at htype
      split at hfirst
      case h_1 hrtnone => simp at hfirst
      case h_2 rt hrt =>
        split at hfirst
        · simp at hfirst
        · case _ hrev =>
          split at hfirst
          case h_1 husernone => simp at hfirst
          case h_2 user huser =>
            simp only [Prod.mk.injEq, Except.ok.injEq] at hfirst
            obtain ⟨hpair, hdb1⟩ := hfirst
            have hrevoked : findRT db1 tok.claims.jti
                = some { rt with revoked := true } := by
              rw [← hdb1, findRT_addRT_ne _ _ _ hfresh, findRT_revokeRT, hrt]
              rfl
            refine ⟨⟨rt, hrt, by simpa using hrev, hrevoked⟩, ?_⟩
            have hnexp2 : ¬ tok.claims.exp < now2 := by omega
            unfold refresh_token
            simp [decode_token, hsig, hnexp2, htype, hrevoked]

/-- Store for the rotation witnesses: the user `alice` (id 1) and one
live refresh record with jti `"j0"`. -/
def exDb : DBState :=
  ⟨[⟨1, "alice", "h", "user"⟩], [⟨"j0", 1, 100 + 7 * 86400, false⟩]⟩

/-- Refresh token presented in the rotation witnesses: issued at time
100 for user 1 with jti `"j0"` and a 7-day TTL. -/
def exTok : Token := (create_refresh_token "s" 7 100 1 "j0").1

/-- State of `exDb` after the first successful rotation: the old record
revoked, the new record (jti `"rj1"`) live. -/
def exDb1 : DBState :=
  ⟨[⟨1, "alice", "h", "user"⟩],
   [⟨"j0", 1, 100 + 7 * 86400, true⟩, ⟨"rj1", 1, 100 + 7 * 86400, false⟩]⟩

/-- Token pair returned by the first rotation in the C1 witness. -/
def exPair : TokenPair :=
  ⟨create_access_token "s" 15 100 1 "user" "aj1",
   (create_refresh_token "s" 7 100 1 "rj1").1⟩

/-- Witness for C1: in `exDb`, rotating `exTok` once succeeds, and
presenting it again is rejected as revoked-or-unknown. -/
theorem C1_second_rotation_rejected_witness :
    (refresh_token "s" 15 7 100 "aj2" "rj2" exTok exDb1).1
      = Except.error ⟨401, "Refresh token revoked or unknown"⟩ :=
  (C1_second_rotation_rejected "s" 15 7 100 100 "aj1" "rj1" "aj2" "rj2"
      exTok exDb exDb1 exPair (by rfl) (by decide) (by decide)).2

/-- C10: presenting a well-formed, unexpired, unrevoked refresh token
whose subject user record no longer exists fails with
`401 "User not found"`, but the presented record has already been
revoked and committed before the user lookup, so the failure is not
atomic: retrying the same token afterwards fails with the
revoked-or-unknown 401 instead. -/
theorem C10_user_gone_rotation_not_atomic
    (secret : String) (accessMin refreshDays now : Nat)
    (aj rj aj2 rj2 : String) (tok : Token) (db : DBState)
    (rt : RefreshTokenORM)
    (hsig : tok.signedWith = secret)
    (hexp : ¬ tok.claims.exp < now)
    (htype : tok.claims.type = "refresh")
    (hrt : findRT db tok.claims.jti = some rt)
    (hrev : rt.revoked = false)
    (huser : findUserById db tok.claims.sub = none) :
    refresh_token secret accessMin refreshDays now aj rj tok db
        = (Except.error ⟨401, "User not found"⟩, revokeRT db tok.claims.jti)
    ∧ findRT (revokeRT db tok.claims.jti) tok.claims.jti
        = some { rt with revoked := true }
    ∧ (refresh_token secret accessMin refreshDays now aj2 rj2 tok
          (revokeRT db tok.claims.jti)).1
        = Except.error ⟨401, "Refresh token revoked or unknown"⟩ := by
  have hfind : findRT (revokeRT db tok.claims.jti) tok.claims.jti
      = some { rt with revoked := true } := by
    rw [findRT_revokeRT, hrt]
    rfl
  have huser2 : findUserById (revokeRT db tok.claims.jti) tok.claims.sub
      = none := by
    rw [findUserById_revokeRT]
    exact huser
  refine ⟨?_, hfind, ?_⟩
  · simp [refresh_token, decode_token, hsig, hexp, htype, hrt, hrev, huser2]
  · simp [refresh_token, decode_token, hsig, hexp, htype, hfind]

/-- Store for the C10 witness: no users at all, but a live refresh
record with jti `"j0"`. -/
def exDb10 : DBState := ⟨[], [⟨"j0", 1, 100 + 7 * 86400, false⟩]⟩

/-- Witness for C10: rotating `exTok` in a store whose user table lost
user 1 answers "User not found" yet commits the revocation, and the
retry is rejected as revoked-or-unknown. -/
theorem C10_user_gone_rotation_not_atomic_witness :
    refresh_token "s" 15 7 100 "aj" "rj" exTok exDb10
        = (Except.error ⟨401, "User not found"⟩,
           revokeRT exDb10 exTok.claims.jti)
    ∧ (refresh_token "s" 15 7 100 "aj2" "rj2" exTok
          (revokeRT exDb10 exTok.claims.jti)).1
        = Except.error ⟨401, "Refresh token revoked or unknown"⟩ :=
  ⟨(C10_user_gone_rotation_not_atomic "s" 15 7 100 "aj" "rj" "aj2" "rj2"
      exTok exDb10 ⟨"j0", 1, 100 + 7 * 86400, false⟩ (by rfl) (by decide)
      (by rfl) (by rfl) (by rfl) (by rfl)).1,
   (C10_user_gone_rotation_not_atomic "s" 15 7 100 "aj" "rj" "aj2" "rj2"
      exTok exDb10 ⟨"j0", 1, 100 + 7 * 86400, false⟩ (by rfl) (by decide)
      (by rfl) (by rfl) (by rfl) (by rfl)).2.2⟩

/-- The read-and-check step a `refresh_token` call performs on the
presented `jti`: the `SELECT ... WHERE jti == jti` followed by
`if not rt or rt.revoked` — true when the record exists and is not yet
revoked.  In the implementation this read is NOT combined with the
later `rt.revoked = True` write into one conditional update. -/
def rotateReadPasses (db : DBState) (jti : String) : Bool :=
  match findRT db jti with
  | none => false
  | some rt => !rt.revoked

/-- Progress of one rotation transaction through its two store steps. -/
inductive TxPhase where
  | start : TxPhase
  | checked (passed : Bool) : TxPhase
  | done (succeeded : Bool) : TxPhase
deriving Repr, DecidableEq

/-- One store step of a rotation transaction against the shared store,
at the granularity the implementation admits under concurrent requests:
first the read-and-check (`SELECT` + revoked test), then — if the check
passed — the unconditional `rt.revoked = True; commit` write (there is
no `revoked == false` condition and no zero-rows-affected test), after
which the transaction responds successfully. -/
def txStep (db : DBState) (jti : String) (ph : TxPhase) : TxPhase × DBState :=
  match ph with
  | TxPhase.start => (TxPhase.checked (rotateReadPasses db jti), db)
  | TxPhase.checked passed =>
      if passed then (TxPhase.done true, revokeRT db jti)
      else (TxPhase.done false, db)
  | TxPhase.done b => (TxPhase.done b, db)

/-- Shared store plus the phases of two concurrent rotation
transactions presenting the same token. -/
structure RaceState where
  db : DBState
  tx1 : TxPhase
  tx2 : TxPhase
deriving Repr, DecidableEq

/-- Run an interleaving of the two transactions: `true` advances the
first transaction by one store step, `false` the second. -/
def runSchedule (jti : String) : List Bool → RaceState → RaceState
  | [], s => s
  | pick1 :: rest, s =>
      if pick1 then
        let r := txStep s.db jti s.tx1
        runSchedule jti rest ⟨r.2, r.1, s.tx2⟩
      else
        let r := txStep s.db jti s.tx2
        runSchedule jti rest ⟨r.2, s.tx1, r.1⟩

/-- C6 (refuted, code bug): rotation is NOT linearizable.  Because the
revoke-old step is a separate read followed by an unconditional write
rather than a conditional update, the interleaving read1, read2,
write1, write2 of two concurrent `refresh_token` calls presenting the
same live token `"j1"` lets BOTH transactions pass the revoked check
and BOTH succeed, where the specification demands that exactly one
succeed and the other observe `RevokedOrUnknown`. -/
theorem C6_rotation_race_both_succeed :
    (runSchedule "j1" [true, false, true, false]
        ⟨⟨[⟨1, "alice", "h", "user"⟩], [⟨"j1", 1, 1000, false⟩]⟩,
         TxPhase.start, TxPhase.start⟩).tx1 = TxPhase.done true
    ∧ (runSchedule "j1" [true, false, true, false]
        ⟨⟨[⟨1, "alice", "h", "user"⟩], [⟨"j1", 1, 1000, false⟩]⟩,
         TxPhase.start, TxPhase.start⟩).tx2 = TxPhase.done true := by
  constructor <;> rfl

/-- Modelled from the spec: the `revoke(jti)` operation backing the
`/logout` flow is described ("sets `revoked = true` on the matching
record; used by logout. No-op if already revoked or absent") but has no
implementation in the repository — `routes/auth.py` has no logout
endpoint and no revoke helper; only the package docstring sketches the
flow.  It performs the same committed write as the revoke-old
step. -/
def revoke (db : DBState) (jti : String) : DBState :=
  { db with
    refresh_tokens := db.refresh_tokens.map
      (fun rt => if rt.jti == jti then { rt with revoked := true } else rt) }

/-- Setting `revoked := true` on every record matching `jti` changes
nothing when each matching record is already revoked (in particular
when none matches). -/
theorem map_revoke_id (l : List RefreshTokenORM) (j : String)
    (h : ∀ rt ∈ l, rt.jti = j → rt.revoked = true) :
    l.map (fun rt => if rt.jti == j then { rt with revoked := true } else rt)
      = l := by
  induction l with
  | nil => rfl
  | cons hd tl ih =>
      have hhd : (if hd.jti == j then { hd with revoked := true } else hd)
          = hd := by
        by_cases hh : hd.jti = j
        · have := h hd (by simp) hh
          cases hd with
          | mk a b c d => simp_all
        · simp [hh]
      simp only [List.map_cons, hhd,
        ih (fun rt hm hj => h rt (by simp [hm]) hj)]

/-- C7: `revoke` sets `revoked = true` on the record matching `jti`, is
a no-op when the record is absent or already revoked, and a subsequent
refresh presenting the revoked token is rejected as
revoked-or-unknown. -/
theorem C7_revoke_logout
    (db : DBState) (jti : String) (rt : RefreshTokenORM)
    (secret : String) (accessMin refreshDays now : Nat) (aj rj : String)
    (tok : Token) :
    (findRT db jti = some rt →
        findRT (revoke db jti) jti = some { rt with revoked := true })
    ∧ ((∀ r ∈ db.refresh_tokens, r.jti = jti → r.revoked = true) →
        revoke db jti = db)
    ∧ (tok.signedWith = secret → ¬ tok.claims.exp < now →
        tok.claims.type = "refresh" →
        (refresh_token secret accessMin refreshDays now aj rj tok
            (revoke db tok.claims.jti)).1
          = Except.error ⟨401, "Refresh token revoked or unknown"⟩) := by
  have hfind : ∀ j, findRT (revoke db j) j
      = (findRT db j).map (fun r => { r with revoked := true }) := by
    intro j
    unfold findRT revoke
    exact find?_map_revoke db.refresh_tokens j
  refine ⟨?_, ?_, ?_⟩
  · intro h
    rw [hfind, h]
    rfl
  · intro h
    unfold revoke
    cases db with
    | mk us rts => rw [map_revoke_id rts jti (by simpa using h)]
  · intro hsig hexp htype
    cases hf : findRT db tok.claims.jti with
    | none =>
        have : findRT (revoke db tok.claims.jti) tok.claims.jti = none := by
          rw [hfind, hf]
          rfl
        simp [refresh_token, decode_token, hsig, hexp, htype, this]
    | some r =>
        have : findRT (revoke db tok.claims.jti) tok.claims.jti
            = some { r with revoked := true } := by
          rw [hfind, hf]
          rfl
        simp [refresh_token, decode_token, hsig, hexp, htype, this]

/-- Witness for C7: in `exDb`, revoking `"j0"` marks the record revoked,
re-revoking is a no-op, and refreshing with `exTok` afterwards is
rejected. -/
theorem C7_revoke_logout_witness :
    findRT (revoke exDb "j0") "j0"
        = some ⟨"j0", 1, 100 + 7 * 86400, true⟩
    ∧ revoke (revoke exDb "j0") "j0" = revoke exDb "j0"
    ∧ (refresh_token "s" 15 7 100 "aj" "rj" exTok (revoke exDb "j0")).1
        = Except.error ⟨401, "Refresh token revoked or unknown"⟩ :=
  ⟨(C7_revoke_logout exDb "j0" ⟨"j0", 1, 100 + 7 * 86400, false⟩ "s" 15 7 100
      "aj" "rj" exTok).1 (by rfl),
   (C7_revoke_logout (revoke exDb "j0") "j0" ⟨"j0", 1, 100 + 7 * 86400, true⟩
      "s" 15 7 100 "aj" "rj" exTok).2.1 (by decide),
   (C7_revoke_logout exDb "j0" ⟨"j0", 1, 100 + 7 * 86400, false⟩ "s" 15 7 100
      "aj" "rj" exTok).2.2 (by rfl) (by decide) (by rfl)⟩
